import Mathlib

/-!
Shallow embedding of the build-time dependency resolver in `src/build.rs`
of the hdfs-sys repository.  The build script inspects feature flags
(`cfg!(feature = ...)`), the target OS (`cfg!(target_os = ...)` and
`cfg!(windows)`), environment variables, and two external discovery
collaborators (the java-locator crate), and emits cargo directives
(`println!("cargo:...")`) plus one invocation of the `cc` toolchain
builder.  We model each of those inputs explicitly and each `println!`
as an element of a directive list, in emission order.
-/

namespace HdfsSys

/-- Target OS classes distinguished by the build script: it tests
`target_os = "linux"`, `target_os = "macos"`, `target_os = "windows"`
(and `cfg!(windows)`, which coincides with the latter on real targets);
every other target behaves like `otherPosix`. -/
inductive OS
  | linux
  | macos
  | windows
  | otherPosix
deriving DecidableEq, Repr, Fintype

def OS.isWindows : OS → Bool
  | .windows => true
  | _ => false

/-- The closed, totally ordered enumeration of libhdfs ABI generations
appearing in `build.rs` (the strings assigned to `version`). -/
inductive Version
  | v2_2 | v2_3 | v2_4 | v2_5 | v2_6 | v2_7 | v2_8 | v2_9 | v2_10
  | v3_0 | v3_1 | v3_2 | v3_3
deriving DecidableEq, Repr, Fintype

/-- Position of a version tag in the total order (oldest = 0). -/
def Version.idx : Version → Nat
  | .v2_2 => 0 | .v2_3 => 1 | .v2_4 => 2 | .v2_5 => 3 | .v2_6 => 4
  | .v2_7 => 5 | .v2_8 => 6 | .v2_9 => 7 | .v2_10 => 8
  | .v3_0 => 9 | .v3_1 => 10 | .v3_2 => 11 | .v3_3 => 12

/-- Total order on version tags, oldest to newest. -/
def Version.le (a b : Version) : Bool := a.idx ≤ b.idx

/-- Strict order on version tags. -/
def Version.lt (a b : Version) : Bool := a.idx < b.idx

/-- The exact string the build script assigns to its `version` variable. -/
def Version.name : Version → String
  | .v2_2 => "hdfs_2_2" | .v2_3 => "hdfs_2_3" | .v2_4 => "hdfs_2_4"
  | .v2_5 => "hdfs_2_5" | .v2_6 => "hdfs_2_6" | .v2_7 => "hdfs_2_7"
  | .v2_8 => "hdfs_2_8" | .v2_9 => "hdfs_2_9" | .v2_10 => "hdfs_2_10"
  | .v3_0 => "hdfs_3_0" | .v3_1 => "hdfs_3_1" | .v3_2 => "hdfs_3_2"
  | .v3_3 => "hdfs_3_3"

/-- The cargo feature flags the build script tests with `cfg!(feature = ...)`:
twelve version-selector flags (there is no flag for the oldest tag 2.2,
which is the default) plus the `vendored` packaging flag. -/
structure Features where
  hdfs_2_3 : Bool
  hdfs_2_4 : Bool
  hdfs_2_5 : Bool
  hdfs_2_6 : Bool
  hdfs_2_7 : Bool
  hdfs_2_8 : Bool
  hdfs_2_9 : Bool
  hdfs_2_10 : Bool
  hdfs_3_0 : Bool
  hdfs_3_1 : Bool
  hdfs_3_2 : Bool
  hdfs_3_3 : Bool
  vendored : Bool
deriving DecidableEq, Repr

/-- Whether the version-selector flag corresponding to a tag is enabled
(the oldest tag has no flag). -/
def flagEnabled (f : Features) : Version → Bool
  | .v2_2 => false
  | .v2_3 => f.hdfs_2_3
  | .v2_4 => f.hdfs_2_4
  | .v2_5 => f.hdfs_2_5
  | .v2_6 => f.hdfs_2_6
  | .v2_7 => f.hdfs_2_7
  | .v2_8 => f.hdfs_2_8
  | .v2_9 => f.hdfs_2_9
  | .v2_10 => f.hdfs_2_10
  | .v3_0 => f.hdfs_3_0
  | .v3_1 => f.hdfs_3_1
  | .v3_2 => f.hdfs_3_2
  | .v3_3 => f.hdfs_3_3

/-- Version resolution, translated statement by statement from
`build.rs` lines 131-175: start at the oldest tag, let each enabled
flag overwrite it in ascending order, with the windows override
inserted between the 2.5 and 2.6 checks. -/
def resolveVersion (f : Features) (os : OS) : Version :=
  let version := Version.v2_2
  let version := if f.hdfs_2_3 then .v2_3 else version
  let version := if f.hdfs_2_4 then .v2_4 else version
  let version := if f.hdfs_2_5 then .v2_5 else version
  let version := if os.isWindows then .v2_6 else version
  let version := if f.hdfs_2_6 then .v2_6 else version
  let version := if f.hdfs_2_7 then .v2_7 else version
  let version := if f.hdfs_2_8 then .v2_8 else version
  let version := if f.hdfs_2_9 then .v2_9 else version
  let version := if f.hdfs_2_10 then .v2_10 else version
  let version := if f.hdfs_3_0 then .v3_0 else version
  let version := if f.hdfs_3_1 then .v3_1 else version
  let version := if f.hdfs_3_2 then .v3_2 else version
  let version := if f.hdfs_3_3 then .v3_3 else version
  version

/-- Later of two tags in the total order. -/
def tagMax (a b : Version) : Version := if Version.le a b then b else a

/-- Specification-side resolution function, written from the words of
the spec only, to be compared with `resolveVersion`: the maximum tag
whose feature flag is enabled, defaulting to the oldest tag, and on
windows additionally at least the platform minimum 2.6. -/
def specResolvedTag (f : Features) (os : OS) : Version :=
  let maxFlag :=
    [Version.v2_3, .v2_4, .v2_5, .v2_6, .v2_7, .v2_8, .v2_9, .v2_10,
     .v3_0, .v3_1, .v3_2, .v3_3].foldl
      (fun acc v => if flagEnabled f v then tagMax acc v else acc) Version.v2_2
  if os.isWindows then tagMax maxFlag .v2_6 else maxFlag

/-- Environment variables read by the build script.  `HDFS_LIB_DIR` and
`HADOOP_HOME` are read with `env::var` (value used), `HDFS_STATIC` with
`env::var_os` (only presence matters), `DOCS_RS` with `env::var` (only
`is_ok` matters). -/
structure Env where
  DOCS_RS : Option String
  HDFS_LIB_DIR : Option String
  HADOOP_HOME : Option String
  HDFS_STATIC : Option String
deriving DecidableEq, Repr

/-- Results of the external java-locator collaborator calls the script
may make: `locate_jvm_dyn_library`, `locate_java_home`, and (windows
only) `locate_file("jvm.lib")`. -/
structure Collab where
  locate_jvm_dyn_library : Except String String
  locate_java_home : Except String String
  locate_file_jvm_lib : Except String String
deriving Repr

/-- One `println!("cargo:...")` directive emitted by the build script. -/
inductive Directive
  | linkLib (spec : String)
  | linkSearch (path : String)
  | linkArg (arg : String)
  | metadata (kv : String)
  | rerunIfEnvChanged (var : String)
  | warning (msg : String)
deriving DecidableEq, Repr

def Directive.isRerun : Directive → Bool
  | .rerunIfEnvChanged _ => true
  | _ => false

/-- Translation of `find_jvm` (build.rs lines 25-44).  It emits the jvm
link-lib directive, then the native search path, then the rpath link
argument, then the JVM_PATH metadata; on windows only it additionally
looks up `jvm.lib` and, when that lookup succeeds, appends one more
search path (a failed lookup is silently skipped). -/
def find_jvm (c : Collab) (os : OS) : Except String (List Directive) :=
  match c.locate_jvm_dyn_library with
  | .error e => .error e
  | .ok jvm_path =>
    .ok ([.linkLib "jvm",
          .linkSearch jvm_path,
          .linkArg ("-Wl,-rpath," ++ jvm_path),
          .metadata ("JVM_PATH=" ++ jvm_path)]
      ++ (if os.isWindows then
            match c.locate_file_jvm_lib with
            | .ok jvm_lib_path => [Directive.linkSearch jvm_lib_path]
            | .error _ => []
          else []))

/-- The three rerun-if-env-changed registrations at the top of
`find_libhdfs` (build.rs lines 53-56). -/
def rerunDirectives : List Directive :=
  [.rerunIfEnvChanged "HDFS_LIB_DIR",
   .rerunIfEnvChanged "HDFS_STATIC",
   .rerunIfEnvChanged "HADOOP_HOME"]

/-- Translation of `find_libhdfs` (build.rs lines 52-74): register the
three env triggers; take the library directory from `HDFS_LIB_DIR`,
else `HADOOP_HOME` suffixed with `/lib/native`, else report not found;
otherwise emit the search path, then one hdfs link directive whose mode
is `static` when `HDFS_STATIC` is present and `dylib` otherwise.
The Rust source returns `Result` but has no failing path. -/
def find_libhdfs (e : Env) : Except String (List Directive × Bool) :=
  let lib_dir? : Option String :=
    match e.HDFS_LIB_DIR with
    | some lib_dir => some lib_dir
    | none =>
      match e.HADOOP_HOME with
      | some hadoop_home => some (hadoop_home ++ "/lib/native")
      | none => none
  match lib_dir? with
  | none => .ok (rerunDirectives, false)
  | some lib_dir =>
    let mode := match e.HDFS_STATIC with
      | some _ => "static"
      | none => "dylib"
    .ok (rerunDirectives
          ++ [.linkSearch lib_dir, .linkLib (mode ++ "=hdfs")], true)

/-- Java header include directories (build.rs lines 119-129): the base
include directory always, plus exactly one OS subdirectory for linux,
macos and windows targets. -/
def javaIncludes (java_home : String) (os : OS) : List String :=
  [java_home ++ "/include"]
    ++ (if os = OS.linux then [java_home ++ "/include/linux"] else [])
    ++ (if os = OS.macos then [java_home ++ "/include/darwin"] else [])
    ++ (if os = OS.windows then [java_home ++ "/include/win32"] else [])

/-- Source files registered with the toolchain by build.rs lines
177-221, written relative to the `libhdfs/{version}` directory, in
registration order: the three core files always; the OS threading trio
when the `hdfs_2_6` flag is set or the target is windows (windows
variants on windows, posix variants otherwise); the hash-table file
when `hdfs_2_6` is set and `hdfs_3_3` is not; the class-registry file
when `hdfs_3_3` is set. -/
def verFiles (f : Features) (os : OS) : List String :=
  ["exception.c", "jni_helper.c", "hdfs.c"]
    ++ (if f.hdfs_2_6 || os.isWindows then
          if os.isWindows then
            ["os/windows/mutexes.c", "os/windows/thread.c",
             "os/windows/thread_local_storage.c"]
          else
            ["os/posix/mutexes.c", "os/posix/thread.c",
             "os/posix/thread_local_storage.c"]
        else [])
    ++ (if f.hdfs_2_6 && !f.hdfs_3_3 then ["common/htable.c"] else [])
    ++ (if f.hdfs_3_3 then ["jclasses.c"] else [])

/-- Include directories under `libhdfs/{version}` registered by
build.rs lines 183-211, in registration order: the `os` directory and
its windows or posix subdirectory under the same condition as the
threading sources; `common` with the hash-table file; `include` when
the `hdfs_2_8` flag is set (the relocated public header). -/
def verIncludes (f : Features) (os : OS) : List String :=
  (if f.hdfs_2_6 || os.isWindows then
      "os" :: (if os.isWindows then ["os/windows"] else ["os/posix"])
    else [])
    ++ (if f.hdfs_2_6 && !f.hdfs_3_3 then ["common"] else [])
    ++ (if f.hdfs_2_8 then ["include"] else [])

/-- Full source file paths passed to the toolchain, with the
`libhdfs/{version}/` prefix interpolated as in the `format!` calls. -/
def sourceFiles (f : Features) (os : OS) : List String :=
  (verFiles f os).map
    (fun p => "libhdfs/" ++ (resolveVersion f os).name ++ "/" ++ p)

/-- Full include paths passed to the toolchain, in registration order:
the `libhdfs` root, the version root, the version-relative directories
of `verIncludes`, and on windows with the `hdfs_3_3` flag the bundled
`libdirent/include` shim (build.rs lines 217-220). -/
def sourceIncludes (f : Features) (os : OS) : List String :=
  ["libhdfs", "libhdfs/" ++ (resolveVersion f os).name]
    ++ (verIncludes f os).map
        (fun p => "libhdfs/" ++ (resolveVersion f os).name ++ "/" ++ p)
    ++ (if f.hdfs_3_3 && os.isWindows then ["libdirent/include"] else [])

/-- Configuration handed to the `cc` toolchain collaborator by
`build_libhdfs`: warning switch, static flags, per-OS flags (build.rs
lines 96-117), conditionally-supported flags, include list and file
list, and the output library name. -/
structure CcBuild where
  warningsOff : Bool
  static_flag : Bool
  static_crt : Bool
  flag_if_supported : List String
  flags : List String
  includes : List String
  files : List String
  output : String
deriving DecidableEq, Repr

/-- Per-OS unconditional flags from build.rs lines 96-117. -/
def ccFlags (os : OS) : List String :=
  if os.isWindows then
    ["-O2", "/W4", "/wd4100", "/wd4127", "-D_CRT_NONSTDC_NO_DEPRECATE",
     "-D_CRT_SECURE_NO_WARNINGS", "-DWIN32_LEAN_AND_MEAN"]
  else
    ["-fvisibility=hidden", "-fcommon"]

/-- The fallback diagnostic of build.rs lines 225-226, emitted only
without the `vendored` feature. -/
def fallbackWarning : String :=
  "Building libhdfs from source as a fallback, " ++
  "if you are encountering issues with missing headers on JDK8, " ++
  "consider enabling the `vendored` feature."

/-- Translation of `build_libhdfs` (build.rs lines 76-231): locate a
Java home (fatal on failure), emit the static hdfs link directive,
configure the toolchain, resolve the version, assemble includes and
files, emit the fallback warning unless the `vendored` feature is on,
and hand the configuration to the toolchain. -/
def build_libhdfs (c : Collab) (f : Features) (os : OS) :
    Except String (List Directive × CcBuild) :=
  match c.locate_java_home with
  | .error e => .error e
  | .ok java_home =>
    let cc : CcBuild :=
      { warningsOff := true
        static_flag := !os.isWindows
        static_crt := true
        flag_if_supported := ["-w", "-std=c++17"]
        flags := ccFlags os
        includes := javaIncludes java_home os ++ sourceIncludes f os
        files := sourceFiles f os
        output := "hdfs" }
    .ok ([Directive.linkLib "static=hdfs"]
          ++ (if f.vendored then [] else [Directive.warning fallbackWarning]),
         cc)

/-- Translation of `main` (build.rs lines 5-23): return success with
no output at all when `DOCS_RS` is set; otherwise run `find_jvm`
(propagating its failure); take `found` as `false` without calling
`find_libhdfs` when the `vendored` feature is on, else ask
`find_libhdfs`; when not found, run `build_libhdfs` (propagating its
failure).  The second component records the toolchain invocation when
compilation happened. -/
def main (c : Collab) (e : Env) (f : Features) (os : OS) :
    Except String (List Directive × Option CcBuild) :=
  if (e.DOCS_RS).isSome then .ok ([], none)
  else
    match find_jvm c os with
    | .error err => .error err
    | .ok jvmDs =>
      match (if f.vendored then .ok ([], false) else find_libhdfs e :
              Except String (List Directive × Bool)) with
      | .error err => .error err
      | .ok (locDs, found) =>
        if found then .ok (jvmDs ++ locDs, none)
        else
          match build_libhdfs c f os with
          | .error err => .error err
          | .ok (bDs, cc) => .ok (jvmDs ++ locDs ++ bDs, some cc)

/-- Directives of a `main` run, empty when the run failed. -/
def mainDirectives (c : Collab) (e : Env) (f : Features) (os : OS) :
    List Directive :=
  match main c e f os with
  | .ok (ds, _) => ds
  | .error _ => []

/-- Whether a `main` run succeeded and invoked the toolchain. -/
def mainRanBuild (c : Collab) (e : Env) (f : Features) (os : OS) : Bool :=
  match main c e f os with
  | .ok (_, some _) => true
  | _ => false

/-- Modelled from the spec: the crate manifest (not part of src/)
declares the version-selector flags as a chain, each flag enabling the
next older one, so the flags a build can actually see are downward
closed ("mutually complementary, not mutually exclusive — latest
wins").  `flagsUpTo t` is the flag set of a build whose newest
requested tag is `t`, with the packaging flag off. -/
def flagsUpTo (t : Version) : Features :=
  { hdfs_2_3 := Version.le .v2_3 t
    hdfs_2_4 := Version.le .v2_4 t
    hdfs_2_5 := Version.le .v2_5 t
    hdfs_2_6 := Version.le .v2_6 t
    hdfs_2_7 := Version.le .v2_7 t
    hdfs_2_8 := Version.le .v2_8 t
    hdfs_2_9 := Version.le .v2_9 t
    hdfs_2_10 := Version.le .v2_10 t
    hdfs_3_0 := Version.le .v3_0 t
    hdfs_3_1 := Version.le .v3_1 t
    hdfs_3_2 := Version.le .v3_2 t
    hdfs_3_3 := Version.le .v3_3 t
    vendored := false }

/-- A collaborator state where JVM and Java home discovery succeed and
the windows `jvm.lib` lookup fails. -/
def collabOK : Collab :=
  { locate_jvm_dyn_library := .ok "/jvm"
    locate_java_home := .ok "/java"
    locate_file_jvm_lib := .error "jvm.lib not found" }

/-- A collaborator state where every discovery call fails. -/
def collabBad : Collab :=
  { locate_jvm_dyn_library := .error "no jvm"
    locate_java_home := .error "no java home"
    locate_file_jvm_lib := .error "no jvm.lib" }

/-- An environment with no relevant variable set. -/
def envEmpty : Env :=
  { DOCS_RS := none, HDFS_LIB_DIR := none,
    HADOOP_HOME := none, HDFS_STATIC := none }

/-- An environment pointing the locator at a prebuilt directory. -/
def envLibDir : Env :=
  { DOCS_RS := none, HDFS_LIB_DIR := some "/opt/lib",
    HADOOP_HOME := none, HDFS_STATIC := none }

/-- An environment in documentation mode. -/
def envDocs : Env :=
  { DOCS_RS := some "1", HDFS_LIB_DIR := some "/opt/lib",
    HADOOP_HOME := some "/hh", HDFS_STATIC := some "1" }

/-- Flag set with only the packaging feature enabled. -/
def featVendored : Features :=
  { flagsUpTo .v2_2 with vendored := true }

/-- Directive list of a `find_libhdfs` run (the run never fails). -/
def locDirectives (e : Env) : List Directive :=
  match find_libhdfs e with
  | .ok (ds, _) => ds
  | .error _ => []

/-- Found flag of a `find_libhdfs` run (the run never fails). -/
def foundOf (e : Env) : Bool :=
  match find_libhdfs e with
  | .ok (_, b) => b
  | .error _ => false

/-- Whether a `main` run reported overall success. -/
def mainOk (c : Collab) (e : Env) (f : Features) (os : OS) : Bool :=
  match main c e f os with
  | .ok _ => true
  | .error _ => false

end HdfsSys

namespace HdfsSys

/-- C9: if the documentation-mode signal `DOCS_RS` is present, `main`
reports success immediately with no directives of any kind, no
discovery and no toolchain invocation. -/
theorem docs_rs_short_circuit (c : Collab) (e : Env) (f : Features)
    (os : OS) (h : (e.DOCS_RS).isSome = true) :
    main c e f os = .ok ([], none) := by
  unfold main
  rw [if_pos h]

/-- Witness for C9 at a concrete input on which every discovery
collaborator would fail: the gate still reports success with no
output. -/
theorem docs_rs_short_circuit_witness :
    main collabBad envDocs featVendored OS.windows = .ok ([], none) :=
  docs_rs_short_circuit collabBad envDocs featVendored OS.windows rfl

/-- C1 counterexample: a build with the `vendored` feature enabled (and
a prebuilt directory even configured in the environment) still invokes
`build_libhdfs`: the toolchain runs and the static hdfs link directive
is emitted, contradicting the claim that the Vendored Source Builder is
skipped entirely under this flag. -/
theorem vendored_build_invokes_compiler_cex :
    featVendored.vendored = true ∧
    mainRanBuild collabOK envLibDir featVendored OS.linux = true ∧
    Directive.linkLib "static=hdfs"
      ∈ mainDirectives collabOK envLibDir featVendored OS.linux := by
  decide

/-- C3 counterexample: tag 2.6 is strictly older than tag 3.3, yet the
hash-table source present in the 2.6 source set has no counterpart in
the 3.3 source set on the same OS (even ignoring the version directory,
no hash-table file remains), so the source set is not monotone in the
tag. -/
theorem sourceset_not_monotone_cex :
    Version.lt .v2_6 .v3_3 = true ∧
    "libhdfs/hdfs_2_6/common/htable.c"
      ∈ sourceFiles (flagsUpTo .v2_6) OS.linux ∧
    "common/htable.c" ∈ verFiles (flagsUpTo .v2_6) OS.linux ∧
    "common/htable.c" ∉ verFiles (flagsUpTo .v3_3) OS.linux ∧
    "common" ∈ verIncludes (flagsUpTo .v2_6) OS.linux ∧
    "common" ∉ verIncludes (flagsUpTo .v3_3) OS.linux := by
  decide

/-- C4 counterexample: on windows with no version flags the resolved
tag is the platform floor 2.6, which lies in the half-open range
from 2.6 to 3.3, yet neither the hash-table source nor its
common-utilities include directory is in the source set, because the
rule tests the `hdfs_2_6` feature flag and not the resolved tag. -/
theorem htable_windows_floor_cex :
    resolveVersion (flagsUpTo .v2_2) OS.windows = .v2_6 ∧
    Version.le .v2_6 (resolveVersion (flagsUpTo .v2_2) OS.windows) = true ∧
    Version.lt (resolveVersion (flagsUpTo .v2_2) OS.windows) .v3_3 = true ∧
    "common/htable.c" ∉ verFiles (flagsUpTo .v2_2) OS.windows ∧
    "common" ∉ verIncludes (flagsUpTo .v2_2) OS.windows ∧
    "libhdfs/hdfs_2_6/common/htable.c"
      ∉ sourceFiles (flagsUpTo .v2_2) OS.windows := by
  decide

/-- C5 counterexample: `find_jvm` emits the jvm link-lib directive
first and its native search-path directive only second, so a link
directive is emitted before the search path it depends on. -/
theorem jvm_liblink_before_search_cex :
    find_jvm collabOK OS.linux =
      .ok [Directive.linkLib "jvm",
           Directive.linkSearch "/jvm",
           Directive.linkArg "-Wl,-rpath,/jvm",
           Directive.metadata "JVM_PATH=/jvm"] := by
  rfl

/-- C8: with the 3.3 feature requested (which, per the manifest chain,
enables every older flag as well) on a non-windows target, the builder
resolves tag 3.3, compiles the class-registry source, omits the
hash-table source, and adds the relocated-header include directory. -/
theorem scenario_v3_3_posix (os : OS) (h : os.isWindows = false) :
    resolveVersion (flagsUpTo .v3_3) os = .v3_3 ∧
    "jclasses.c" ∈ verFiles (flagsUpTo .v3_3) os ∧
    "common/htable.c" ∉ verFiles (flagsUpTo .v3_3) os ∧
    "include" ∈ verIncludes (flagsUpTo .v3_3) os ∧
    "libhdfs/hdfs_3_3/include" ∈ sourceIncludes (flagsUpTo .v3_3) os := by
  cases os <;> first
    | exact absurd h (by decide)
    | decide

set_option maxHeartbeats 1600000 in
/-- Exhaustive check of the version-resolution law on a non-windows
target; the packaging flag is irrelevant to resolution and is fixed to
false here. -/
theorem resolve_spec_aux_nonwindows :
    ∀ (a1 a2 a3 a4 a5 a6 a7 a8 a9 a10 a11 a12 : Bool),
      resolveVersion
          ⟨a1, a2, a3, a4, a5, a6, a7, a8, a9, a10, a11, a12, false⟩
          OS.linux =
        specResolvedTag
          ⟨a1, a2, a3, a4, a5, a6, a7, a8, a9, a10, a11, a12, false⟩
          OS.linux := by
  decide

set_option maxHeartbeats 1600000 in
/-- Exhaustive check of the version-resolution law on windows. -/
theorem resolve_spec_aux_windows :
    ∀ (a1 a2 a3 a4 a5 a6 a7 a8 a9 a10 a11 a12 : Bool),
      resolveVersion
          ⟨a1, a2, a3, a4, a5, a6, a7, a8, a9, a10, a11, a12, false⟩
          OS.windows =
        specResolvedTag
          ⟨a1, a2, a3, a4, a5, a6, a7, a8, a9, a10, a11, a12, false⟩
          OS.windows := by
  decide

/-- C2: for every flag set and OS, version resolution returns the
maximum tag whose flag is enabled, defaulting to the oldest tag 2.2,
and on windows the result is additionally at least the platform floor
2.6 (so with no flags on windows it is 2.6, not 2.2). -/
theorem resolveVersion_is_max_enabled_flag (f : Features) (os : OS) :
    resolveVersion f os = specResolvedTag f os := by
  obtain ⟨a1, a2, a3, a4, a5, a6, a7, a8, a9, a10, a11, a12, a13⟩ := f
  cases os with
  | linux =>
    exact resolve_spec_aux_nonwindows a1 a2 a3 a4 a5 a6 a7 a8 a9 a10 a11 a12
  | macos =>
    exact resolve_spec_aux_nonwindows a1 a2 a3 a4 a5 a6 a7 a8 a9 a10 a11 a12
  | windows =>
    exact resolve_spec_aux_windows a1 a2 a3 a4 a5 a6 a7 a8 a9 a10 a11 a12
  | otherPosix =>
    exact resolve_spec_aux_nonwindows a1 a2 a3 a4 a5 a6 a7 a8 a9 a10 a11 a12

/-- Witness for C8 on the linux target. -/
theorem scenario_v3_3_posix_witness :
    resolveVersion (flagsUpTo .v3_3) OS.linux = .v3_3 ∧
    "jclasses.c" ∈ verFiles (flagsUpTo .v3_3) OS.linux ∧
    "common/htable.c" ∉ verFiles (flagsUpTo .v3_3) OS.linux ∧
    "include" ∈ verIncludes (flagsUpTo .v3_3) OS.linux ∧
    "libhdfs/hdfs_3_3/include" ∈ sourceIncludes (flagsUpTo .v3_3) OS.linux :=
  scenario_v3_3_posix OS.linux rfl

set_option maxHeartbeats 1600000 in
/-- C3 (amended): over the chained flag sets of the manifest, the
source set for every tag and OS is non-empty, and it grows with the
tag except for the hash-table entries, which the 3.3 rule removes:
every version-relative file of an older tag other than the hash-table
source, and every version-relative include other than the
common-utilities directory, is still present for any newer tag on the
same OS. -/
theorem sourceset_monotone_mod_htable :
    ∀ (t1 t2 : Version) (os : OS),
      Version.le t1 t2 = true →
      sourceFiles (flagsUpTo t1) os ≠ [] ∧
      sourceIncludes (flagsUpTo t1) os ≠ [] ∧
      (∀ p ∈ verFiles (flagsUpTo t1) os,
        p = "common/htable.c" ∨ p ∈ verFiles (flagsUpTo t2) os) ∧
      (∀ p ∈ verIncludes (flagsUpTo t1) os,
        p = "common" ∨ p ∈ verIncludes (flagsUpTo t2) os) := by
  decide

/-- Witness for the amended C3 at tags 2.3 and 3.0 on linux. -/
theorem sourceset_monotone_mod_htable_witness :
    sourceFiles (flagsUpTo .v2_3) OS.linux ≠ [] ∧
    sourceIncludes (flagsUpTo .v2_3) OS.linux ≠ [] ∧
    (∀ p ∈ verFiles (flagsUpTo .v2_3) OS.linux,
      p = "common/htable.c" ∨ p ∈ verFiles (flagsUpTo .v3_0) OS.linux) ∧
    (∀ p ∈ verIncludes (flagsUpTo .v2_3) OS.linux,
      p = "common" ∨ p ∈ verIncludes (flagsUpTo .v3_0) OS.linux) :=
  sourceset_monotone_mod_htable .v2_3 .v3_0 OS.linux (by decide)

/-- C4 (amended): the hash-table source and its common-utilities
include directory are present exactly when the requested tag — the
maximum enabled version flag before the windows platform floor is
applied — lies in the half-open range from 2.6 to 3.3; in particular
they are absent for the removal tag 3.3, and on windows the floored
resolved tag 2.6 can occur with the hash table absent. -/
theorem htable_iff_requested_range :
    ∀ (t : Version) (os : OS),
      (("common/htable.c" ∈ verFiles (flagsUpTo t) os) ↔
        (Version.le .v2_6 t = true ∧ Version.lt t .v3_3 = true)) ∧
      (("common" ∈ verIncludes (flagsUpTo t) os) ↔
        (Version.le .v2_6 t = true ∧ Version.lt t .v3_3 = true)) := by
  decide

/-- C7: the windows threading sources and include directory are in the
source set on every windows build whatever the flags are, with the
posix variants absent; on every non-windows build the windows variants
are absent, so the two threading variants never both appear. -/
theorem threading_sources_by_os :
    ∀ (f : Features) (os : OS),
      (os.isWindows = true →
        "os/windows/mutexes.c" ∈ verFiles f os ∧
        "os/windows/thread.c" ∈ verFiles f os ∧
        "os/windows/thread_local_storage.c" ∈ verFiles f os ∧
        "os/windows" ∈ verIncludes f os ∧
        "os/posix/mutexes.c" ∉ verFiles f os ∧
        "os/posix/thread.c" ∉ verFiles f os ∧
        "os/posix/thread_local_storage.c" ∉ verFiles f os ∧
        "os/posix" ∉ verIncludes f os) ∧
      (os.isWindows = false →
        "os/windows/mutexes.c" ∉ verFiles f os ∧
        "os/windows/thread.c" ∉ verFiles f os ∧
        "os/windows/thread_local_storage.c" ∉ verFiles f os ∧
        "os/windows" ∉ verIncludes f os) := by
  intro f os
  cases h26 : f.hdfs_2_6 <;> cases h33 : f.hdfs_3_3 <;> cases os <;>
    simp [verFiles, verIncludes, OS.isWindows, h26, h33]

/-- Witness for C7: a windows build with no flags carries the windows
trio and no posix variant; a linux build with every flag carries no
windows variant. -/
theorem threading_sources_by_os_witness :
    ("os/windows/mutexes.c" ∈ verFiles (flagsUpTo .v2_2) OS.windows ∧
      "os/windows/thread.c" ∈ verFiles (flagsUpTo .v2_2) OS.windows ∧
      "os/windows/thread_local_storage.c"
        ∈ verFiles (flagsUpTo .v2_2) OS.windows ∧
      "os/windows" ∈ verIncludes (flagsUpTo .v2_2) OS.windows ∧
      "os/posix/mutexes.c" ∉ verFiles (flagsUpTo .v2_2) OS.windows ∧
      "os/posix/thread.c" ∉ verFiles (flagsUpTo .v2_2) OS.windows ∧
      "os/posix/thread_local_storage.c"
        ∉ verFiles (flagsUpTo .v2_2) OS.windows ∧
      "os/posix" ∉ verIncludes (flagsUpTo .v2_2) OS.windows) ∧
    ("os/windows/mutexes.c" ∉ verFiles (flagsUpTo .v3_3) OS.linux ∧
      "os/windows/thread.c" ∉ verFiles (flagsUpTo .v3_3) OS.linux ∧
      "os/windows/thread_local_storage.c"
        ∉ verFiles (flagsUpTo .v3_3) OS.linux ∧
      "os/windows" ∉ verIncludes (flagsUpTo .v3_3) OS.linux) :=
  ⟨(threading_sources_by_os (flagsUpTo .v2_2) OS.windows).1 rfl,
   (threading_sources_by_os (flagsUpTo .v3_3) OS.linux).2 rfl⟩

/-- String-append normal form for the static link mode. -/
theorem static_mode_str : "static" ++ "=hdfs" = "static=hdfs" := rfl

/-- String-append normal form for the dynamic link mode. -/
theorem dylib_mode_str : "dylib" ++ "=hdfs" = "dylib=hdfs" := rfl

/-- C6: the locator never fails; it reports found exactly when one of
the two directory-override variables is set; when found, the static
hdfs link directive is emitted exactly when `HDFS_STATIC` is present
and the dynamic one exactly when it is absent, whichever variable
supplied the directory; when not found, the output is only the three
rerun registrations — no search path and no link directive. -/
theorem find_libhdfs_contract :
    ∀ e : Env,
      find_libhdfs e = .ok (locDirectives e, foundOf e) ∧
      foundOf e = ((e.HDFS_LIB_DIR).isSome || (e.HADOOP_HOME).isSome) ∧
      (foundOf e = true →
        ((Directive.linkLib "static=hdfs" ∈ locDirectives e) ↔
          (e.HDFS_STATIC).isSome = true) ∧
        ((Directive.linkLib "dylib=hdfs" ∈ locDirectives e) ↔
          e.HDFS_STATIC = none)) ∧
      (foundOf e = false → locDirectives e = rerunDirectives) := by
  intro e
  obtain ⟨d, l, hh, st⟩ := e
  cases l <;> cases hh <;> cases st <;>
    simp [find_libhdfs, locDirectives, foundOf, rerunDirectives,
          static_mode_str, dylib_mode_str]

/-- Witness for C6 at an environment where only `HDFS_LIB_DIR` is set:
found without an error, and the dynamic mode is chosen. -/
theorem find_libhdfs_contract_witness :
    find_libhdfs envLibDir = .ok (locDirectives envLibDir, foundOf envLibDir) ∧
    ((Directive.linkLib "dylib=hdfs" ∈ locDirectives envLibDir) ↔
      envLibDir.HDFS_STATIC = none) :=
  ⟨(find_libhdfs_contract envLibDir).1,
   ((find_libhdfs_contract envLibDir).2.2.1 rfl).2⟩

/-- Rerun registrations never appear in the output of a build with the
packaging feature on, whatever the environment, because the locator is
the only emitter of rerun directives and it is bypassed. -/
theorem mainDirectives_no_rerun_of_vendored
    (c : Collab) (e : Env) (f : Features) (os : OS)
    (hv : f.vendored = true) :
    ∀ d ∈ mainDirectives c e f os, d.isRerun = false := by
  unfold mainDirectives main
  cases hdoc : e.DOCS_RS with
  | some v => simp
  | none =>
    simp only [Option.isSome_none, Bool.false_eq_true, if_false]
    cases hj : c.locate_jvm_dyn_library with
    | error err => simp [find_jvm, hj]
    | ok p =>
      cases hb : c.locate_java_home with
      | error err => simp [find_jvm, hj, build_libhdfs, hb, hv]
      | ok jh =>
        simp only [find_jvm, hj, build_libhdfs, hb, hv, if_true]
        cases os <;>
          simp [OS.isWindows, Directive.isRerun] <;>
          cases c.locate_file_jvm_lib <;>
          simp [Directive.isRerun]

/-- C10: with the packaging feature on, the locator is never invoked:
no rerun-if-env-changed registration is emitted, and the whole outcome
of the build is unchanged under any change of the locator environment
variables (two environments agreeing on `DOCS_RS` alone produce the
same result). -/
theorem vendored_ignores_locator_env :
    ∀ (c : Collab) (f : Features) (os : OS) (e e' : Env),
      f.vendored = true → e.DOCS_RS = e'.DOCS_RS →
      main c e f os = main c e' f os ∧
      (∀ d ∈ mainDirectives c e f os, d.isRerun = false) := by
  intro c f os e e' hv hd
  constructor
  · unfold main
    rw [hd, hv]
    simp
  · exact mainDirectives_no_rerun_of_vendored c e f os hv

/-- Witness for C10: a vendored build sees the same outcome whether or
not a prebuilt directory is configured, with no rerun registration. -/
theorem vendored_ignores_locator_env_witness :
    main collabOK envLibDir featVendored OS.linux =
      main collabOK envEmpty featVendored OS.linux ∧
    (∀ d ∈ mainDirectives collabOK envLibDir featVendored OS.linux,
      d.isRerun = false) :=
  vendored_ignores_locator_env collabOK featVendored OS.linux
    envLibDir envEmpty rfl rfl

/-- C1 (amended): with the packaging feature on (and outside
documentation mode), the locator is skipped but the Vendored Source
Builder always runs: every successful build compiled the vendored
sources and emitted the static hdfs link directive, while no rerun
registration and no fallback warning is ever emitted. -/
theorem vendored_always_builds :
    ∀ (c : Collab) (e : Env) (f : Features) (os : OS),
      f.vendored = true → e.DOCS_RS = none →
      (mainOk c e f os = true →
        mainRanBuild c e f os = true ∧
        Directive.linkLib "static=hdfs" ∈ mainDirectives c e f os) ∧
      (∀ d ∈ mainDirectives c e f os,
        d.isRerun = false ∧ d ≠ Directive.warning fallbackWarning) := by
  intro c e f os hv hdoc
  unfold mainOk mainRanBuild mainDirectives main
  rw [hdoc]
  simp only [Option.isSome_none, Bool.false_eq_true, if_false]
  cases hj : c.locate_jvm_dyn_library with
  | error err => simp [find_jvm, hj]
  | ok p =>
    cases hb : c.locate_java_home with
    | error err => simp [find_jvm, hj, build_libhdfs, hb, hv]
    | ok jh =>
      simp only [find_jvm, hj, build_libhdfs, hb, hv, if_true]
      cases os <;>
        simp [OS.isWindows, Directive.isRerun] <;>
        cases c.locate_file_jvm_lib <;>
        simp [Directive.isRerun]

/-- Witness for the amended C1 at a vendored linux build with a
prebuilt directory configured: the toolchain still runs, the static
link directive is emitted, and no rerun or warning appears. -/
theorem vendored_always_builds_witness :
    (mainRanBuild collabOK envLibDir featVendored OS.linux = true ∧
      Directive.linkLib "static=hdfs"
        ∈ mainDirectives collabOK envLibDir featVendored OS.linux) ∧
    (∀ d ∈ mainDirectives collabOK envLibDir featVendored OS.linux,
      d.isRerun = false ∧ d ≠ Directive.warning fallbackWarning) :=
  ⟨(vendored_always_builds collabOK envLibDir featVendored OS.linux
      rfl rfl).1 rfl,
   (vendored_always_builds collabOK envLibDir featVendored OS.linux
      rfl rfl).2⟩

/-- C5 (amended): the Prebuilt Library Locator emits its search path
directly before its hdfs link directive, but the JVM Linkage Resolver
emits the jvm link-lib directive first and its search path second. -/
theorem search_path_ordering_by_component :
    (∀ (e : Env) (ds : List Directive), find_libhdfs e = .ok (ds, true) →
      ∃ dir mode, ds = rerunDirectives
        ++ [Directive.linkSearch dir, Directive.linkLib (mode ++ "=hdfs")]) ∧
    (∀ (c : Collab) (os : OS) (p : String),
      c.locate_jvm_dyn_library = .ok p →
      ∃ rest, find_jvm c os =
        .ok (Directive.linkLib "jvm" :: Directive.linkSearch p :: rest)) := by
  constructor
  · intro e ds h
    obtain ⟨d, l, hh, st⟩ := e
    cases l with
    | some a =>
      cases st with
      | some sv =>
        simp [find_libhdfs] at h
        exact ⟨a, "static", h.symm⟩
      | none =>
        simp [find_libhdfs] at h
        exact ⟨a, "dylib", h.symm⟩
    | none =>
      cases hh with
      | some b =>
        cases st with
        | some sv =>
          simp [find_libhdfs] at h
          exact ⟨b ++ "/lib/native", "static", h.symm⟩
        | none =>
          simp [find_libhdfs] at h
          exact ⟨b ++ "/lib/native", "dylib", h.symm⟩
      | none => simp [find_libhdfs] at h
  · intro c os p h
    refine ⟨[Directive.linkArg ("-Wl,-rpath," ++ p),
             Directive.metadata ("JVM_PATH=" ++ p)]
        ++ (if os.isWindows then
              match c.locate_file_jvm_lib with
              | .ok q => [Directive.linkSearch q]
              | .error _ => []
            else []), ?_⟩
    unfold find_jvm
    rw [h]
    rfl

/-- Witness for the amended C5: concrete locator and resolver runs
exhibiting both orders. -/
theorem search_path_ordering_witness :
    (∃ dir mode, locDirectives envLibDir = rerunDirectives
      ++ [Directive.linkSearch dir, Directive.linkLib (mode ++ "=hdfs")]) ∧
    (∃ rest, find_jvm collabOK OS.linux =
      .ok (Directive.linkLib "jvm" :: Directive.linkSearch "/jvm" :: rest)) :=
  ⟨search_path_ordering_by_component.1 envLibDir (locDirectives envLibDir) rfl,
   search_path_ordering_by_component.2 collabOK OS.linux "/jvm" rfl⟩

end HdfsSys
